import Mathlib

/-!
Verification of the multi-tenant connection layer
(`Backend/utils/tenantManager.js`).

The JavaScript module keeps a module-level map `connections` from a tenant
key to either a pending connection promise or a ready connection handle.
`getTenantConnection(userId)` coerces the argument to a string, returns any
cached entry, and otherwise installs an async attempt (promise) under the
key before the attempt's first suspension point, so that concurrent callers
share one in-flight attempt.

Shallow embedding choices:
  * JavaScript strings are modelled as `List Char` (`Str`).
  * External collaborators (the User profile lookup, the mongoose
    connector, per-connection model registration and collection creation)
    are modelled as an environment `Env` of result-valued functions;
    connection handles are `Nat`.
  * The event-loop concurrency of Node is modelled by atomic steps: the
    synchronous section of `getTenantConnection` (from entry up to the
    first `await`) is `prologue`; the settlement of an attempt's promise
    is `completeAttempt`. Interleavings of callers are sequences of these
    atomic steps.
-/

namespace TenantManager

/-- JavaScript strings, modelled as lists of characters. -/
abbrev Str := List Char

/-- The fixed database-name prefix used by the source
(`AI_FARM_user_`). -/
def prefixStr : Str := "AI_FARM_user_".toList

/-- JavaScript truthiness of a string: falsy exactly when empty. -/
def strTruthy (s : Str) : Bool := !s.isEmpty

/-- The slice of a stored user profile document read by
`getTenantConnection`: only the optional `tenantDbName` field. A missing
or absent field is `none`. -/
structure UserDoc where
  tenantDbName : Option Str
deriving DecidableEq, Repr

/-- Errors surfaced by the external collaborators. `collectionExists`
models a collection-already-exists condition; `failure` models every
other error (network, auth, timeout, registration failure). -/
inductive Err
  | collectionExists
  | failure (msg : Str)
deriving DecidableEq, Repr

/-- Source line 27: the raw database identifier is the user document's
truthy `tenantDbName` when present, else the fallback `AI_FARM_user_`
followed by the id string. -/
def dbIdentifierOf (idStr : Str) (user : Option UserDoc) : Str :=
  match user with
  | none => prefixStr ++ idStr
  | some u =>
    match u.tenantDbName with
    | none => prefixStr ++ idStr
    | some n => if strTruthy n then n else prefixStr ++ idStr

/-- Source line 29: keep the identifier when it already starts with the
prefix, otherwise prepend the prefix. -/
def normalizeName (n : Str) : Str :=
  if prefixStr.isPrefixOf n then n else prefixStr ++ n

/-- The final resolved database name: the identifier of line 27 after the
normalization of line 29. -/
def dbNameOf (idStr : Str) (user : Option UserDoc) : Str :=
  normalizeName (dbIdentifierOf idStr user)

/-- Environment of external collaborators for one attempt body:
the result of `User.findById`, the connector keyed by the resolved
database name, per-connection model registration and collection
creation, the optional mongoose pluralizer, and the keys of the
`TenantSchemas` export. -/
structure Env where
  findByIdResult : Except Err (Option UserDoc)
  createConnectionResult : Str → Except Err Nat
  modelResult : Nat → Str → Except Err Unit
  createCollectionResult : Nat → Str → Except Err Unit
  pluralize : Option (Str → Str)
  schemaNames : List Str

/-- Source line 46: the collection name is the mongoose pluralizer applied
to the model name when a pluralizer exists, else the lowercased model name
with an appended letter s. -/
def collectionNameOf (env : Env) (modelName : Str) : Str :=
  match env.pluralize with
  | some f => f modelName
  | none => modelName.map Char.toLower ++ "s".toList

/-- Source lines 42 to 48: for each schema key in order, register the
model on the connection (an error here aborts the loop and propagates),
then attempt collection creation, discarding its outcome entirely
(the source attaches a catch handler that ignores every error). -/
def registerSchemas (env : Env) (conn : Nat) : List Str → Except Err Unit
  | [] => .ok ()
  | name :: rest =>
    match env.modelResult conn name with
    | .error e => .error e
    | .ok _ =>
      let _ := env.createCollectionResult conn (collectionNameOf env name)
      registerSchemas env conn rest

/-- The body of the cached async attempt (source lines 21 to 57, inside
the try): look up the profile, resolve the database name, create the
connection, register all schemas; any uncaught error rejects the attempt. -/
def attemptBody (idStr : Str) (env : Env) : Except Err Nat :=
  match env.findByIdResult with
  | .error e => .error e
  | .ok user =>
    match env.createConnectionResult (dbNameOf idStr user) with
    | .error e => .error e
    | .ok conn =>
      match registerSchemas env conn env.schemaNames with
      | .error e => .error e
      | .ok _ => .ok conn

/-- The database names `mongoose.createConnection` is invoked with during
one run of the attempt body: none when the profile lookup rejects, and
exactly one (the resolved name) when it resolves. -/
def connectorCalls (idStr : Str) (env : Env) : List Str :=
  match env.findByIdResult with
  | .error _ => []
  | .ok user => [dbNameOf idStr user]

/-- A registry slot: either a pending attempt's promise (identified by an
attempt id) or a ready connection handle. -/
inductive Entry
  | pending (a : Nat)
  | ready (c : Nat)
deriving DecidableEq, Repr

/-- The module-level state: the `connections` map, a supply of fresh
attempt ids, and the log of attempts started (newest first, with their
keys). -/
structure Registry where
  entry : Str → Option Entry
  nextAttempt : Nat
  started : List (Nat × Str)

/-- What one caller holds after its synchronous section: either the
cached ready handle, or a suspension on a pending attempt. -/
inductive CallerState
  | gotReady (c : Nat)
  | waiting (a : Nat)
deriving DecidableEq, Repr

/-- Installation of the placeholder for a fresh attempt (source line 21):
the slot for the key receives the pending promise of a fresh attempt id,
and the attempt is logged as started. -/
def installPending (key : Str) (r : Registry) : Registry :=
  { entry := fun k => if k = key then some (.pending r.nextAttempt) else r.entry k
    nextAttempt := r.nextAttempt + 1
    started := (r.nextAttempt, key) :: r.started }

/-- The synchronous entry section of `getTenantConnection` for the coerced
key (source lines 12 to 21): a cached ready handle is returned at once; a
cached pending promise is awaited; an empty slot receives a fresh pending
attempt before any suspension point, and the caller awaits that attempt.
This whole section runs atomically under the Node event loop. -/
def prologue (key : Str) (r : Registry) : CallerState × Registry :=
  match r.entry key with
  | some (.ready c) => (.gotReady c, r)
  | some (.pending a) => (.waiting a, r)
  | none => (.waiting r.nextAttempt, installPending key r)

/-- Settlement of an attempt's promise for `key` (source lines 50 and 54):
on success the slot becomes the ready handle; on failure the slot is
deleted. -/
def completeAttempt (key : Str) (result : Except Err Nat) (r : Registry) : Registry :=
  { r with entry := fun k =>
      if k = key then
        match result with
        | .ok c => some (.ready c)
        | .error _ => none
      else r.entry k }

/-- The value a caller's own await finally produces, given the results of
the attempts: a cached ready handle resolves immediately; a waiter
receives its attempt's result. -/
def callerResult (attemptResult : Nat → Except Err Nat) : CallerState → Except Err Nat
  | .gotReady c => .ok c
  | .waiting a => attemptResult a

/-- Run the synchronous sections of `n` callers for the same key, one
after another (the only interleaving the event loop allows for atomic
sections), returning their caller states in order and the final registry. -/
def runPrologues (key : Str) : Nat → Registry → List CallerState × Registry
  | 0, r => ([], r)
  | n + 1, r =>
    let p := prologue key r
    let rest := runPrologues key n p.2
    (p.1 :: rest.1, rest.2)

/-- The argument of `getTenantConnection` as a JavaScript value: either a
string already, or an object (such as a Mongo ObjectId) carrying a string
coercion. -/
inductive JsId
  | str (s : Str)
  | objectId (s : Str)
deriving DecidableEq, Repr

/-- JavaScript `toString` on the modelled argument values. -/
def JsId.jsToString : JsId → Str
  | .str s => s
  | .objectId s => s

/-- Source line 10: `getTenantConnection` first coerces its argument with
`toString` and uses the result as registry key; this is its synchronous
section applied to the coerced key. -/
def prologueFor (userId : JsId) (r : Registry) : CallerState × Registry :=
  prologue userId.jsToString r

/-! Demonstration values used by concrete instantiations. -/

/-- The registry at process start: no entries, no attempts. -/
def emptyRegistry : Registry :=
  { entry := fun _ => none, nextAttempt := 0, started := [] }

/-- An environment in which everything succeeds: no stored profile,
connector returns handle 7, registration and collection creation succeed
for the single schema key Cow. -/
def demoEnv : Env :=
  { findByIdResult := .ok none
    createConnectionResult := fun _ => .ok 7
    modelResult := fun _ _ => .ok ()
    createCollectionResult := fun _ _ => .ok ()
    pluralize := none
    schemaNames := ["Cow".toList] }

/-- An environment whose connection attempt fails at the connector. -/
def failEnv : Env :=
  { demoEnv with createConnectionResult := fun _ => .error (.failure "timeout".toList) }

/-- An environment in which collection creation reports an error that is
not a collection-already-exists condition, while everything else
succeeds. -/
def badEnv : Env :=
  { findByIdResult := .ok none
    createConnectionResult := fun _ => .ok 5
    modelResult := fun _ _ => .ok ()
    createCollectionResult := fun _ _ => .error (.failure "eperm".toList)
    pluralize := none
    schemaNames := ["User".toList] }

/-! Helper lemmas. -/

theorem isPrefixOf_append_self (p s : Str) : p.isPrefixOf (p ++ s) = true := by
  induction p with
  | nil => simp
  | cons a as ih => simp [List.isPrefixOf, ih]

theorem dbNameOf_none (idStr : Str) : dbNameOf idStr none = prefixStr ++ idStr := by
  simp [dbNameOf, dbIdentifierOf, normalizeName, isPrefixOf_append_self]

theorem installPending_entry (key : Str) (r : Registry) :
    (installPending key r).entry key = some (.pending r.nextAttempt) := by
  simp [installPending]

theorem installPending_entry_ne (key k : Str) (r : Registry) (h : k ≠ key) :
    (installPending key r).entry k = r.entry k := by
  simp [installPending, h]

theorem prologue_ready (key : Str) (r : Registry) (c : Nat)
    (h : r.entry key = some (.ready c)) : prologue key r = (.gotReady c, r) := by
  simp [prologue, h]

theorem prologue_pending (key : Str) (r : Registry) (a : Nat)
    (h : r.entry key = some (.pending a)) : prologue key r = (.waiting a, r) := by
  simp [prologue, h]

theorem prologue_none (key : Str) (r : Registry) (h : r.entry key = none) :
    prologue key r = (.waiting r.nextAttempt, installPending key r) := by
  simp [prologue, h]

theorem runPrologues_pending (key : Str) (a : Nat) (n : Nat) (r : Registry)
    (h : r.entry key = some (.pending a)) :
    runPrologues key n r = (List.replicate n (.waiting a), r) := by
  induction n with
  | zero => simp [runPrologues]
  | succ n ih => simp [runPrologues, prologue_pending key r a h, ih, List.replicate_succ]

theorem runPrologues_ready (key : Str) (c : Nat) (n : Nat) (r : Registry)
    (h : r.entry key = some (.ready c)) :
    runPrologues key n r = (List.replicate n (.gotReady c), r) := by
  induction n with
  | zero => simp [runPrologues]
  | succ n ih => simp [runPrologues, prologue_ready key r c h, ih, List.replicate_succ]

theorem runPrologues_none (key : Str) (m : Nat) (r : Registry) (h : r.entry key = none) :
    runPrologues key (m + 1) r
      = (List.replicate (m + 1) (.waiting r.nextAttempt), installPending key r) := by
  have hpend := installPending_entry key r
  simp [runPrologues, prologue_none key r h,
    runPrologues_pending key r.nextAttempt m _ hpend, List.replicate_succ]

theorem completeAttempt_entry_ok (key : Str) (c : Nat) (r : Registry) :
    (completeAttempt key (.ok c) r).entry key = some (.ready c) := by
  simp [completeAttempt]

theorem completeAttempt_entry_error (key : Str) (e : Err) (r : Registry) :
    (completeAttempt key (.error e) r).entry key = none := by
  simp [completeAttempt]

theorem completeAttempt_entry_ne (key k : Str) (res : Except Err Nat) (r : Registry)
    (h : k ≠ key) : (completeAttempt key res r).entry k = r.entry k := by
  simp [completeAttempt, h]

theorem attemptBody_findById_ok (idStr : Str) (env : Env) (c : Nat)
    (h : attemptBody idStr env = .ok c) : ∃ u, env.findByIdResult = .ok u := by
  cases hf : env.findByIdResult with
  | error e => rw [attemptBody, hf] at h; cases h
  | ok u => exact ⟨u, rfl⟩

/-! Claim theorems. -/

/-- C1: for every N with 2 or more logically concurrent first calls of
`getTenantConnection` with the same tenant key (no registry entry when the
first call starts), the first caller installs the pending placeholder
atomically in its synchronous section, exactly one attempt is started,
the single attempt body invokes the underlying connector exactly once,
every caller suspends on that same attempt, and when it succeeds with
handle `c` every caller receives that identical handle. -/
theorem single_flight_under_race (key : Str) (N : Nat) (hN : 2 ≤ N)
    (r : Registry) (h : r.entry key = none)
    (env : Env) (c : Nat) (hok : attemptBody key env = .ok c) :
    (prologue key r).2.entry key = some (.pending r.nextAttempt) ∧
    (runPrologues key N r).2.started = (r.nextAttempt, key) :: r.started ∧
    (runPrologues key N r).2.entry key = some (.pending r.nextAttempt) ∧
    (connectorCalls key env).length = 1 ∧
    (runPrologues key N r).1 = List.replicate N (.waiting r.nextAttempt) ∧
    (∀ s ∈ (runPrologues key N r).1,
      callerResult (fun _ => attemptBody key env) s = .ok c) ∧
    (completeAttempt key (.ok c) (runPrologues key N r).2).entry key = some (.ready c) := by
  obtain ⟨m, rfl⟩ : ∃ m, N = m + 1 := ⟨N - 1, by omega⟩
  have hrun := runPrologues_none key m r h
  obtain ⟨u, hu⟩ := attemptBody_findById_ok key env c hok
  refine ⟨?_, ?_, ?_, ?_, ?_, ?_, ?_⟩
  · rw [prologue_none key r h]; exact installPending_entry key r
  · rw [hrun]; rfl
  · rw [hrun]; exact installPending_entry key r
  · simp [connectorCalls, hu]
  · rw [hrun]
  · intro s hs
    rw [hrun] at hs
    have := List.eq_of_mem_replicate hs
    subst this
    simpa [callerResult] using hok
  · exact completeAttempt_entry_ok key c _

/-- C3: when the single attempt for a key fails with error `e`, every
caller suspended on it is rejected with that same error, the completion
step removes the registry entry entirely, and a subsequent call finds no
entry and starts a brand-new attempt (a fresh attempt id is logged), whose
body invokes the underlying connector once as soon as its profile lookup
resolves. -/
theorem failure_clears_cache (key : Str) (N : Nat) (hN : 1 ≤ N)
    (r : Registry) (h : r.entry key = none)
    (env : Env) (e : Err) (hfail : attemptBody key env = .error e)
    (env2 : Env) (u2 : Option UserDoc) (h2 : env2.findByIdResult = .ok u2) :
    (∀ s ∈ (runPrologues key N r).1,
      callerResult (fun _ => attemptBody key env) s = .error e) ∧
    (completeAttempt key (.error e) (runPrologues key N r).2).entry key = none ∧
    (prologue key (completeAttempt key (.error e) (runPrologues key N r).2)).1
      = .waiting (r.nextAttempt + 1) ∧
    (prologue key (completeAttempt key (.error e) (runPrologues key N r).2)).2.started
      = (r.nextAttempt + 1, key) :: (r.nextAttempt, key) :: r.started ∧
    connectorCalls key env2 = [dbNameOf key u2] := by
  obtain ⟨m, rfl⟩ : ∃ m, N = m + 1 := ⟨N - 1, by omega⟩
  have hrun := runPrologues_none key m r h
  have hdel : (completeAttempt key (.error e) (runPrologues key (m + 1) r).2).entry key
      = none := completeAttempt_entry_error key e _
  refine ⟨?_, hdel, ?_, ?_, ?_⟩
  · intro s hs
    rw [hrun] at hs
    have := List.eq_of_mem_replicate hs
    subst this
    simpa [callerResult] using hfail
  · rw [prologue_none key _ hdel, hrun]; rfl
  · rw [prologue_none key _ hdel, hrun]; rfl
  · simp [connectorCalls, h2]

/-- C6: once an attempt for a key has succeeded, the completion step
replaces the pending placeholder with the ready handle; for every registry
whose slot for the key holds the ready handle `c`, any number of
subsequent calls of `getTenantConnection` all return in their synchronous
section with that very handle, leave the registry completely unchanged
(so no further attempt is ever started and nothing is evicted), and each
such caller's result is the handle `c`. -/
theorem idempotent_after_success (key : Str) (r0 r : Registry) (c : Nat)
    (hr : r.entry key = some (.ready c)) (N : Nat) :
    (completeAttempt key (.ok c) r0).entry key = some (.ready c) ∧
    runPrologues key N r = (List.replicate N (.gotReady c), r) ∧
    ∀ f s, s ∈ (runPrologues key N r).1 → callerResult f s = .ok c := by
  refine ⟨completeAttempt_entry_ok key c r0, runPrologues_ready key c N r hr, ?_⟩
  intro f s hs
  rw [runPrologues_ready key c N r hr] at hs
  have := List.eq_of_mem_replicate hs
  subst this
  rfl

/-- Witness for C1 at key u123, two callers, the all-success environment. -/
theorem single_flight_under_race_witness :
    2 ≤ 2 ∧ emptyRegistry.entry "u123".toList = none ∧
    attemptBody "u123".toList demoEnv = .ok 7 ∧
    ((prologue "u123".toList emptyRegistry).2.entry "u123".toList = some (.pending 0) ∧
     (runPrologues "u123".toList 2 emptyRegistry).2.started = [(0, "u123".toList)] ∧
     (runPrologues "u123".toList 2 emptyRegistry).2.entry "u123".toList = some (.pending 0) ∧
     (connectorCalls "u123".toList demoEnv).length = 1 ∧
     (runPrologues "u123".toList 2 emptyRegistry).1 = List.replicate 2 (.waiting 0) ∧
     (∀ s ∈ (runPrologues "u123".toList 2 emptyRegistry).1,
       callerResult (fun _ => attemptBody "u123".toList demoEnv) s = .ok 7) ∧
     (completeAttempt "u123".toList (.ok 7)
        (runPrologues "u123".toList 2 emptyRegistry).2).entry "u123".toList
       = some (.ready 7)) :=
  ⟨by decide, rfl, rfl,
   single_flight_under_race "u123".toList 2 (by decide) emptyRegistry rfl demoEnv 7 rfl⟩

/-- Witness for C3 at key u1: one caller, connector timeout, then a retry
with the all-success environment. -/
theorem failure_clears_cache_witness :
    1 ≤ 1 ∧ emptyRegistry.entry "u1".toList = none ∧
    attemptBody "u1".toList failEnv = .error (.failure "timeout".toList) ∧
    demoEnv.findByIdResult = .ok none ∧
    ((∀ s ∈ (runPrologues "u1".toList 1 emptyRegistry).1,
      callerResult (fun _ => attemptBody "u1".toList failEnv) s
        = .error (.failure "timeout".toList)) ∧
     (completeAttempt "u1".toList (.error (.failure "timeout".toList))
        (runPrologues "u1".toList 1 emptyRegistry).2).entry "u1".toList = none ∧
     (prologue "u1".toList (completeAttempt "u1".toList (.error (.failure "timeout".toList))
        (runPrologues "u1".toList 1 emptyRegistry).2)).1 = .waiting 1 ∧
     (prologue "u1".toList (completeAttempt "u1".toList (.error (.failure "timeout".toList))
        (runPrologues "u1".toList 1 emptyRegistry).2)).2.started
       = [(1, "u1".toList), (0, "u1".toList)] ∧
     connectorCalls "u1".toList demoEnv = [dbNameOf "u1".toList none]) :=
  ⟨by decide, rfl, rfl, rfl,
   failure_clears_cache "u1".toList 1 (by decide) emptyRegistry rfl failEnv
     (.failure "timeout".toList) rfl demoEnv none rfl⟩

/-- A registry in which the attempt for key abc has completed with ready
handle 3. -/
def readyRegistry : Registry :=
  completeAttempt "abc".toList (.ok 3) (installPending "abc".toList emptyRegistry)

/-- Witness for C6 at key abc with ready handle 3 and two further calls. -/
theorem idempotent_after_success_witness :
    readyRegistry.entry "abc".toList = some (.ready 3) ∧
    ((completeAttempt "abc".toList (.ok 3) emptyRegistry).entry "abc".toList
       = some (.ready 3) ∧
     runPrologues "abc".toList 2 readyRegistry
       = (List.replicate 2 (.gotReady 3), readyRegistry) ∧
     ∀ f s, s ∈ (runPrologues "abc".toList 2 readyRegistry).1 → callerResult f s = .ok 3) :=
  ⟨by decide, idempotent_after_success "abc".toList emptyRegistry readyRegistry 3 (by decide) 2⟩

/-- The profile of identity x in the C2 scenario: an explicit stored
tenant database name that resolves to the same final name as identity y's
derived fallback. -/
def profileA : UserDoc := ⟨some "AI_FARM_user_y".toList⟩

/-- The registry after identity x's call completed with handle 1. -/
def c2State : Registry :=
  completeAttempt "x".toList (.ok 1) (prologue "x".toList emptyRegistry).2

/-- Counterexample to C2: identities x (explicit stored name) and y
(derived fallback) resolve to the same final database name, yet the
connection is cached under the raw id x rather than under the resolved
name, identity y's slot is empty, y's call starts a second attempt
instead of receiving the cached handle, and afterwards the registry holds
two distinct entries and has logged two attempts. -/
theorem cache_key_counterexample :
    dbNameOf "x".toList (some profileA) = dbNameOf "y".toList none ∧
    c2State.entry "x".toList = some (.ready 1) ∧
    c2State.entry (dbNameOf "x".toList (some profileA)) = none ∧
    (prologue "y".toList c2State).1 = .waiting 1 ∧
    (prologue "y".toList c2State).2.entry "x".toList = some (.ready 1) ∧
    (prologue "y".toList c2State).2.entry "y".toList = some (.pending 1) ∧
    (prologue "y".toList c2State).2.started.length = 2 := by
  decide

/-- C2 amended: the registry's cache key is the raw user-id string, not
the resolved database name; for any two distinct ids whose profiles
resolve to the same final database name, after the first id's attempt
succeeds the handle is cached under the first id only, the second id's
slot is still empty, and the second id's call starts its own fresh
attempt instead of sharing the cached connection. -/
theorem cache_key_is_raw_id (i1 i2 : Str) (u1 u2 : Option UserDoc) (hne : i1 ≠ i2)
    (hsame : dbNameOf i1 u1 = dbNameOf i2 u2)
    (r : Registry) (h1 : r.entry i1 = none) (h2 : r.entry i2 = none) (c : Nat) :
    (completeAttempt i1 (.ok c) (prologue i1 r).2).entry i1 = some (.ready c) ∧
    (completeAttempt i1 (.ok c) (prologue i1 r).2).entry i2 = none ∧
    (prologue i2 (completeAttempt i1 (.ok c) (prologue i1 r).2)).1
      = .waiting (r.nextAttempt + 1) ∧
    (prologue i2 (completeAttempt i1 (.ok c) (prologue i1 r).2)).2.started
      = (r.nextAttempt + 1, i2) :: (r.nextAttempt, i1) :: r.started := by
  have hp := prologue_none i1 r h1
  have he2 : (completeAttempt i1 (.ok c) (prologue i1 r).2).entry i2 = none := by
    rw [hp, completeAttempt_entry_ne i1 i2 _ _ hne.symm,
      installPending_entry_ne i1 i2 r hne.symm]
    exact h2
  refine ⟨completeAttempt_entry_ok i1 c _, he2, ?_, ?_⟩
  · rw [prologue_none i2 _ he2, hp]
    rfl
  · rw [prologue_none i2 _ he2, hp]
    rfl

/-- Witness for the amended C2: ids x and y with the C2 profiles, starting
from the empty registry, handle 1. -/
theorem cache_key_is_raw_id_witness :
    "x".toList ≠ "y".toList ∧
    dbNameOf "x".toList (some profileA) = dbNameOf "y".toList none ∧
    emptyRegistry.entry "x".toList = none ∧
    emptyRegistry.entry "y".toList = none ∧
    ((completeAttempt "x".toList (.ok 1) (prologue "x".toList emptyRegistry).2).entry "x".toList
       = some (.ready 1) ∧
     (completeAttempt "x".toList (.ok 1) (prologue "x".toList emptyRegistry).2).entry "y".toList
       = none ∧
     (prologue "y".toList
        (completeAttempt "x".toList (.ok 1) (prologue "x".toList emptyRegistry).2)).1
       = .waiting 1 ∧
     (prologue "y".toList
        (completeAttempt "x".toList (.ok 1) (prologue "x".toList emptyRegistry).2)).2.started
       = [(1, "y".toList), (0, "x".toList)]) :=
  ⟨by decide, by decide, rfl, rfl,
   cache_key_is_raw_id "x".toList "y".toList (some profileA) none (by decide) (by decide)
     emptyRegistry rfl rfl 1⟩

/-- C4: name-resolution precedence. A profile carrying an explicit truthy
tenantDbName resolves to that name after prefix normalization; a missing
profile, or a profile without a stored name, resolves to the fixed prefix
followed by the user id; in particular user u123 with no stored name
resolves to database AI_FARM_user_u123. -/
theorem name_resolution_precedence :
    (∀ (idStr n : Str) (u : UserDoc), u.tenantDbName = some n → strTruthy n = true →
        dbNameOf idStr (some u) = normalizeName n) ∧
    (∀ idStr : Str, dbNameOf idStr none = prefixStr ++ idStr) ∧
    (∀ (idStr : Str) (u : UserDoc), u.tenantDbName = none →
        dbNameOf idStr (some u) = prefixStr ++ idStr) ∧
    dbNameOf "u123".toList none = "AI_FARM_user_u123".toList := by
  refine ⟨?_, dbNameOf_none, ?_, by decide⟩
  · intro idStr n u hn ht
    simp [dbNameOf, dbIdentifierOf, hn, ht]
  · intro idStr u hn
    simp [dbNameOf, dbIdentifierOf, hn, normalizeName, isPrefixOf_append_self]

/-- Witness for C4: a user with the explicit stored name farmdb. -/
theorem name_resolution_precedence_witness :
    (UserDoc.tenantDbName ⟨some "farmdb".toList⟩ = some "farmdb".toList ∧
     strTruthy "farmdb".toList = true) ∧
    dbNameOf "u9".toList (some ⟨some "farmdb".toList⟩) = normalizeName "farmdb".toList :=
  ⟨⟨rfl, by decide⟩,
   name_resolution_precedence.1 "u9".toList "farmdb".toList ⟨some "farmdb".toList⟩ rfl
     (by decide)⟩

/-- Counterexample to C5: in the environment badEnv, collection creation
reports an error that is not a collection-already-exists condition, yet
the attempt still succeeds with handle 5 — the source discards every
collection-creation error, so a non-already-exists registration error
does not fail the connection attempt as the claim requires. -/
theorem collection_error_swallowed :
    badEnv.createCollectionResult 5 (collectionNameOf badEnv "User".toList)
      = .error (.failure "eperm".toList) ∧
    Err.failure "eperm".toList ≠ Err.collectionExists ∧
    badEnv.schemaNames = ["User".toList] ∧
    attemptBody "u1".toList badEnv = .ok 5 := by
  refine ⟨rfl, by decide, rfl, rfl⟩

/-- C5 amended: after a connection is established every schema key is
processed in order; the outcome of the defensive collection-creation step
is discarded entirely (any collection-creation error, already-exists or
not, is swallowed and never influences the result), registration succeeds
whenever every model registration succeeds, and an error from model
registration itself fails the whole connection attempt so the caller
receives a failure. -/
theorem schema_error_policy (env : Env) (conn : Nat) :
    (∀ (f : Nat → Str → Except Err Unit) (names : List Str),
        registerSchemas { env with createCollectionResult := f } conn names
          = registerSchemas env conn names) ∧
    (∀ names : List Str, (∀ n ∈ names, env.modelResult conn n = .ok ()) →
        registerSchemas env conn names = .ok ()) ∧
    (∀ (idStr : Str) (u : Option UserDoc) (e : Err),
        env.findByIdResult = .ok u →
        env.createConnectionResult (dbNameOf idStr u) = .ok conn →
        registerSchemas env conn env.schemaNames = .error e →
        attemptBody idStr env = .error e) := by
  refine ⟨?_, ?_, ?_⟩
  · intro f names
    induction names with
    | nil => rfl
    | cons n rest ih =>
      simp only [registerSchemas, collectionNameOf]
      cases env.modelResult conn n with
      | error e => rfl
      | ok _ => exact ih
  · intro names hall
    induction names with
    | nil => rfl
    | cons n rest ih =>
      have hn := hall n (by simp)
      simp only [registerSchemas, hn]
      exact ih fun m hm => hall m (by simp [hm])
  · intro idStr u e hf hc hr
    simp only [attemptBody, hf, hc, hr]

/-- Witness for the amended C5: in badEnv every model registration
succeeds, so registration of the schema list succeeds even though every
collection creation errors. -/
theorem schema_error_policy_witness :
    (∀ n ∈ ["User".toList], badEnv.modelResult 5 n = .ok ()) ∧
    registerSchemas badEnv 5 ["User".toList] = .ok () :=
  ⟨fun n _ => rfl, (schema_error_policy badEnv 5).2.1 ["User".toList] fun n _ => rfl⟩

/-- Counterexample to C7: for the identifier AI_FARM_user_x (which itself
starts with the naming prefix), a profile storing the bare form and one
storing the prefixed form resolve to different final database names — the
prefixed form is normalized to a doubly-prefixed name. -/
theorem prefix_normalization_counterexample :
    dbNameOf "z".toList (some ⟨some "AI_FARM_user_x".toList⟩) ≠
      dbNameOf "z".toList (some ⟨some (prefixStr ++ "AI_FARM_user_x".toList)⟩) := by
  decide

/-- C7 amended: for every nonempty identifier s that does not itself start
with the prefix AI_FARM_user_, a profile storing the bare name s and one
storing the prefixed name resolve to the identical final database name;
the equivalence can fail when s is empty or already carries the prefix. -/
theorem prefix_normalization_equiv (s idStr : Str)
    (hs : strTruthy s = true) (hnp : prefixStr.isPrefixOf s = false) :
    dbNameOf idStr (some ⟨some s⟩) = dbNameOf idStr (some ⟨some (prefixStr ++ s)⟩) := by
  have hne : strTruthy (prefixStr ++ s) = true := by
    simp [strTruthy, prefixStr]
  simp [dbNameOf, dbIdentifierOf, hs, hne, normalizeName, hnp, isPrefixOf_append_self]

/-- Witness for the amended C7 at the identifier farm1. -/
theorem prefix_normalization_equiv_witness :
    strTruthy "farm1".toList = true ∧
    prefixStr.isPrefixOf "farm1".toList = false ∧
    dbNameOf "u2".toList (some ⟨some "farm1".toList⟩)
      = dbNameOf "u2".toList (some ⟨some (prefixStr ++ "farm1".toList)⟩) :=
  ⟨by decide, by decide,
   prefix_normalization_equiv "farm1".toList "u2".toList (by decide) (by decide)⟩

/-- C8: stable name resolution. The database name an attempt connects to
is a deterministic function of the id string and the looked-up profile
alone: any two environments whose profile lookups return the same
document produce the identical single connector call, with the resolved
name dbNameOf. -/
theorem resolution_deterministic (idStr : Str) (u : Option UserDoc) (env1 env2 : Env)
    (h1 : env1.findByIdResult = .ok u) (h2 : env2.findByIdResult = .ok u) :
    connectorCalls idStr env1 = [dbNameOf idStr u] ∧
    connectorCalls idStr env2 = [dbNameOf idStr u] ∧
    connectorCalls idStr env1 = connectorCalls idStr env2 := by
  simp [connectorCalls, h1, h2]

/-- Witness for C8: demoEnv and failEnv share the profile lookup result
none, so both resolve user u5 to the same single connector call. -/
theorem resolution_deterministic_witness :
    demoEnv.findByIdResult = .ok none ∧ failEnv.findByIdResult = .ok none ∧
    (connectorCalls "u5".toList demoEnv = [dbNameOf "u5".toList none] ∧
     connectorCalls "u5".toList failEnv = [dbNameOf "u5".toList none] ∧
     connectorCalls "u5".toList demoEnv = connectorCalls "u5".toList failEnv) :=
  ⟨rfl, rfl, resolution_deterministic "u5".toList none demoEnv failEnv rfl rfl⟩

/-- C9: a missing profile is not an error. When the profile lookup
resolves to null, the resolution falls back to the derived name (the
prefix followed by the id, exactly as for a profile with no stored
tenantDbName), and the attempt proceeds and succeeds whenever the
connector and the schema registration succeed. -/
theorem missing_profile_falls_back (idStr : Str) (env : Env) (c : Nat)
    (h : env.findByIdResult = .ok none)
    (hc : env.createConnectionResult (prefixStr ++ idStr) = .ok c)
    (hr : registerSchemas env c env.schemaNames = .ok ()) :
    dbNameOf idStr none = prefixStr ++ idStr ∧
    dbNameOf idStr (some ⟨none⟩) = dbNameOf idStr none ∧
    attemptBody idStr env = .ok c := by
  refine ⟨dbNameOf_none idStr, rfl, ?_⟩
  simp only [attemptBody, h, dbNameOf_none idStr, hc, hr]

/-- Witness for C9: user u1 in demoEnv, whose lookup yields null. -/
theorem missing_profile_falls_back_witness :
    demoEnv.findByIdResult = .ok none ∧
    demoEnv.createConnectionResult (prefixStr ++ "u1".toList) = .ok 7 ∧
    registerSchemas demoEnv 7 demoEnv.schemaNames = .ok () ∧
    (dbNameOf "u1".toList none = prefixStr ++ "u1".toList ∧
     dbNameOf "u1".toList (some ⟨none⟩) = dbNameOf "u1".toList none ∧
     attemptBody "u1".toList demoEnv = .ok 7) :=
  ⟨rfl, rfl, rfl, missing_profile_falls_back "u1".toList demoEnv 7 rfl rfl rfl⟩

/-- C10: key coercion. The registry key is the string coercion of the
argument; an argument value and its own string coercion address the same
cache entry, so once the slot for that key holds a ready handle, calling
`getTenantConnection` with either form returns that same handle from the
synchronous section and leaves the registry unchanged (no second
attempt). -/
theorem key_coercion (v : JsId) (r : Registry) (c : Nat)
    (h : r.entry v.jsToString = some (.ready c)) :
    JsId.jsToString (.str v.jsToString) = v.jsToString ∧
    prologueFor v r = (.gotReady c, r) ∧
    prologueFor (.str v.jsToString) r = (.gotReady c, r) := by
  refine ⟨rfl, ?_, ?_⟩
  · exact prologue_ready _ r c h
  · exact prologue_ready _ r c h

/-- Witness for C10: an ObjectId-like argument whose coercion is abc, on
the registry holding ready handle 3 for abc. -/
theorem key_coercion_witness :
    readyRegistry.entry (JsId.objectId "abc".toList).jsToString = some (.ready 3) ∧
    (JsId.jsToString (.str (JsId.objectId "abc".toList).jsToString)
       = (JsId.objectId "abc".toList).jsToString ∧
     prologueFor (.objectId "abc".toList) readyRegistry = (.gotReady 3, readyRegistry) ∧
     prologueFor (.str (JsId.objectId "abc".toList).jsToString) readyRegistry
       = (.gotReady 3, readyRegistry)) :=
  ⟨by decide, key_coercion (.objectId "abc".toList) readyRegistry 3 (by decide)⟩

end TenantManager
